import Mathlib

/-!
Shallow embedding of the client-side session and conversation-state
manager of the chat application (components/ChatUI.jsx).

The localStorage-backed session directory is modelled as a list of
`SessionMeta` records; the current-session pointer as a string.  The React
component's state is the record `ChatState`.  Asynchronous operations
(history fetch, inference call) are split into a synchronous start, which
records the values the JavaScript closure captures at issue time, and a
resolution step applied to whatever the state is when the promise settles.
`Date.now()` is passed in explicitly as a natural number.
-/

set_option maxHeartbeats 1000000

namespace ChatUI

/-- JavaScript `text.trim()`: strip whitespace from both ends, modelled on
the character list of the string. -/
def jsTrim (s : String) : String :=
  ⟨((s.data.dropWhile Char.isWhitespace).reverse.dropWhile
      Char.isWhitespace).reverse⟩

/-- JavaScript `text.slice(0, 50)`: the leading 50 characters, modelled on
the character list of the string. -/
def jsSlice50 (s : String) : String :=
  ⟨s.data.take 50⟩

/-- Role of a chat message: the JS code uses the strings "user" and "model". -/
inductive Role where
  | user : Role
  | model : Role
deriving DecidableEq, Repr

/-- A chat message, `\x7b role, text \x7d` in the JS code. -/
structure Message where
  role : Role
  text : String
deriving DecidableEq, Repr

/-- One entry of the session directory stored under the localStorage key
"chat_sessions": `\x7b id, preview, timestamp \x7d`. -/
structure SessionMeta where
  id : String
  preview : String
  timestamp : Nat
deriving DecidableEq, Repr

/-- The two persisted localStorage cells: the directory under
"chat_sessions" (`getAllSessions` reads it, corrupt data degrading to the
empty list) and the active-session pointer under "chat_session_id". -/
structure Persisted where
  sessions : List SessionMeta
  currentId : String
deriving DecidableEq, Repr

/-- Inner loop of the `existing` branch of `saveSession`: the JS code
mutates the first entry whose id matches in place, leaving every other
entry and the order untouched. -/
def updateFirst (sessionId preview : String) (now : Nat) :
    List SessionMeta → List SessionMeta
  | [] => []
  | s :: rest =>
    if s.id = sessionId then
      { s with preview := preview, timestamp := now } :: rest
    else
      s :: updateFirst sessionId preview now rest

/-- The function `saveSession(sessionId, preview = "")`: unknown ids are unshifted to the
front with the placeholder preview "New conversation" (the JS
`preview || "New conversation"` treats the empty default as absent);
known ids are updated only when a non-empty, differing preview is given,
otherwise the call leaves the stored directory untouched. -/
def saveSession (sessions : List SessionMeta) (sessionId : String)
    (preview : String) (now : Nat) : List SessionMeta :=
  match sessions.find? (fun s => s.id = sessionId) with
  | none =>
    { id := sessionId,
      preview := if preview = "" then "New conversation" else preview,
      timestamp := now } :: sessions
  | some existing =>
    if preview ≠ "" ∧ preview ≠ existing.preview then
      updateFirst sessionId preview now sessions
    else
      sessions

/-- The function `setCurrentSession(sessionId)`: persist the pointer. -/
def setCurrentSession (p : Persisted) (sessionId : String) : Persisted :=
  { p with currentId := sessionId }

/-- The function `getCurrentSession()`: read the pointer (absence modelled as ""). -/
def getCurrentSession (p : Persisted) : String :=
  p.currentId

/-- The function `createNewSession()`: here `newId` stands for the fresh `uuidv4()` value;
the id is set as current, registered in the directory with the default
preview, and returned. -/
def createNewSession (p : Persisted) (newId : String) (now : Nat) :
    Persisted × String :=
  let p1 := setCurrentSession p newId
  let p2 := { p1 with sessions := saveSession p1.sessions newId "" now }
  (p2, newId)

/-- The React state of the `ChatUI` component together with the persisted
localStorage cells it reads and writes (`showSidebar` and the scroll ref are
pure presentation and are not modelled). -/
structure ChatState where
  persisted : Persisted
  sessionId : String
  sessions : List SessionMeta
  messages : List Message
  input : String
  isTyping : Bool
  isLoadingHistory : Bool
  error : String
deriving DecidableEq, Repr

/-- The synthetic welcome message shown when a session has no history. -/
def welcomeMessage : Message :=
  { role := Role.model,
    text := "Hi! I\x27m your Gemini-powered assistant. Ask me anything." }

/-- The fallback assistant message appended when the inference call fails. -/
def fallbackMessage : Message :=
  { role := Role.model,
    text := "I ran into an issue sending that. Please try again." }

/-- The body of the POST issued by `sendMessage`: the session the request
was made for and the trimmed message text. -/
structure SendRequest where
  forSession : String
  message : String
deriving DecidableEq, Repr

/-- Synchronous part of `sendMessage`, up to the `fetch`.  The error is
cleared first; then the guard `!trimmed || isTyping || !sessionId` makes the
call return without issuing a request.  Otherwise the trimmed text is
appended optimistically as a user message, the input is cleared, the typing
flag is set, and — when the pre-append message list has length at most 1 —
the directory preview is saved from the first 50 characters.  Returns the
issued request, if any. -/
def sendMessage (σ : ChatState) (now : Nat) : ChatState × Option SendRequest :=
  let σ0 := { σ with error := "" }
  let trimmed := jsTrim σ0.input
  if trimmed = "" ∨ σ0.isTyping = true ∨ σ0.sessionId = "" then
    (σ0, none)
  else
    let userMsg : Message := { role := Role.user, text := trimmed }
    let σ1 := { σ0 with
      messages := σ0.messages ++ [userMsg],
      input := "",
      isTyping := true }
    let σ2 :=
      if σ0.messages.length ≤ 1 then
        let st := saveSession σ1.persisted.sessions σ1.sessionId
          (jsSlice50 trimmed) now
        { σ1 with
          persisted := { σ1.persisted with sessions := st },
          sessions := st }
      else σ1
    (σ2, some { forSession := σ0.sessionId, message := trimmed })

/-- Resolution of a successful exchange call: the reply is appended as a
model message to whatever message list is current, and the typing flag is
cleared.  The JS code performs no staleness check here: the `forSession` of
the request plays no role. -/
def sendResolveOk (σ : ChatState) (reply : String) : ChatState :=
  { σ with
    messages := σ.messages ++ [{ role := Role.model, text := reply }],
    isTyping := false }

/-- Resolution of a failed exchange call (`catch` and `finally` blocks):
the error banner is set from the failure message with a generic fallback,
the fallback assistant message is appended, and the typing flag is
cleared. -/
def sendResolveErr (σ : ChatState) (errMsg : String) : ChatState :=
  { σ with
    error := if errMsg = "" then "Something went wrong." else errMsg,
    messages := σ.messages ++ [fallbackMessage],
    isTyping := false }

/-- The handler `handleSwitchSession(id)`: a no-op when `id` is already active,
otherwise the pointer is persisted and the component state updated, and the
error is cleared.  The history reload itself is the effect modelled by
`loadHistoryStart` / `loadHistoryResolve`. -/
def handleSwitchSession (σ : ChatState) (id : String) : ChatState :=
  if id = σ.sessionId then σ
  else
    { σ with
      persisted := setCurrentSession σ.persisted id,
      sessionId := id,
      error := "" }

/-- Synchronous part of the history-loading effect that runs when
`sessionId` changes: nothing happens for an empty id; otherwise the loading
flag is set and a GET for the current `sessionId` is issued.  The returned
string is the session id captured by the closure. -/
def loadHistoryStart (σ : ChatState) : ChatState × Option String :=
  if σ.sessionId = "" then (σ, none)
  else ({ σ with isLoadingHistory := true }, some σ.sessionId)

/-- Resolution of a history GET issued for `forSession`.  `result` is
`some msgs` when the response was ok and carried a message array, `none` on
a transport error, a non-success status or a missing array.  A non-empty
history replaces the message list verbatim and, when it contains a user
message, refreshes the directory preview from its first 50 characters; an
empty or failed history seeds the welcome message.  The loading flag is
cleared in all cases.  The JS code applies the result regardless of whether
`forSession` still matches the active session. -/
def loadHistoryResolve (σ : ChatState) (forSession : String)
    (result : Option (List Message)) (now : Nat) : ChatState :=
  match result with
  | some msgs =>
    if msgs.length > 0 then
      let σ1 := { σ with messages := msgs }
      match msgs.find? (fun m => m.role = Role.user) with
      | some firstUserMsg =>
        let st := saveSession σ1.persisted.sessions forSession
          (jsSlice50 firstUserMsg.text) now
        { σ1 with
          persisted := { σ1.persisted with sessions := st },
          sessions := st,
          isLoadingHistory := false }
      | none => { σ1 with isLoadingHistory := false }
    else
      { σ with messages := [welcomeMessage], isLoadingHistory := false }
  | none =>
    { σ with messages := [welcomeMessage], isLoadingHistory := false }

/-- The handler `handleNewChat()`: create and register a fresh session (`newId` stands
for the `uuidv4()` value), point the component at it, refresh the sidebar
list, and clear the conversation and the error. -/
def handleNewChat (σ : ChatState) (newId : String) (now : Nat) : ChatState :=
  let pr := createNewSession σ.persisted newId now
  { σ with
    persisted := pr.1,
    sessionId := pr.2,
    sessions := pr.1.sessions,
    messages := [],
    error := "" }

/-- A sequence of `n` `createNewSession()` calls where the i-th `uuidv4()`
value is `gen i`; returns the final persisted state and the list of
returned identifiers, in call order. -/
def createNewFold (gen : Nat → String) (now : Nat) (p : Persisted) :
    Nat → Persisted × List String
  | 0 => (p, [])
  | n + 1 =>
    let acc := createNewFold gen now p n
    let step := createNewSession acc.1 (gen n) now
    (step.1, acc.2 ++ [step.2])

/-- Observer: the preview stored in the directory for `id`, read the way
`saveSession` locates entries (first match wins). -/
def previewOf (sessions : List SessionMeta) (id : String) : Option String :=
  (sessions.find? (fun s => s.id = id)).map SessionMeta.preview

/-- A non-empty string keeps a non-empty leading slice. -/
theorem jsSlice50_ne_empty (s : String) (h : s ≠ "") : jsSlice50 s ≠ "" := by
  cases s with
  | mk data =>
    cases data with
    | nil => exact absurd rfl h
    | cons c cs =>
      intro hc
      have h2 : List.take 50 (c :: cs) = [] := congrArg String.data hc
      simp at h2

/-- C4: immediately after `send(text)` in the Ready state with trimmed
non-empty text, before the exchange call resolves, the last message is the
optimistic user message carrying the trimmed text, and the input field is
cleared. -/
theorem c4_optimistic_append (σ : ChatState) (now : Nat)
    (hready : σ.isTyping = false) (hsid : σ.sessionId ≠ "")
    (ht : jsTrim σ.input ≠ "") :
    ((sendMessage σ now).1.messages).getLast? =
      some { role := Role.user, text := jsTrim σ.input } ∧
    (sendMessage σ now).1.input = "" := by
  unfold sendMessage
  simp only [hready]
  rw [if_neg (by simp [ht, hsid])]
  constructor
  · split <;> simp
  · split <;> rfl

/-- C4 witness: a concrete Ready state where the optimistic append and the
input clearing are observable. -/
theorem c4_witness :
    ((sendMessage
        { persisted := { sessions := [], currentId := "A" }, sessionId := "A",
          sessions := [], messages := [], input := " hello ",
          isTyping := false, isLoadingHistory := false, error := "" }
        3).1.messages).getLast? =
      some { role := Role.user, text := "hello" } :=
  by
    have h := c4_optimistic_append
      { persisted := { sessions := [], currentId := "A" }, sessionId := "A",
        sessions := [], messages := [], input := " hello ",
        isTyping := false, isLoadingHistory := false, error := "" }
      3 rfl (by decide) (by decide)
    rw [h.1]
    decide

/-- State used as the C5 counterexample: a visible error is present and the
input trims to the empty string. -/
def c5State : ChatState :=
  { persisted := { sessions := [], currentId := "A" },
    sessionId := "A", sessions := [], messages := [], input := " ",
    isTyping := false, isLoadingHistory := false, error := "Request failed." }

/-- C5 counterexample: a `send` call with an empty trimmed text issues no
request yet does change observable state — the previously displayed error
field is cleared before the precondition guard runs. -/
theorem c5_error_cleared_counterexample :
    jsTrim c5State.input = "" ∧
    (sendMessage c5State 0).2 = none ∧
    c5State.error = "Request failed." ∧
    (sendMessage c5State 0).1.error = "" ∧
    (sendMessage c5State 0).1 ≠ c5State := by decide

/-- C5 amended: a `send` call with violated preconditions issues no
external call and leaves every observable except the error field unchanged;
the error field is cleared to the empty string. -/
theorem c5_noop_except_error_cleared (σ : ChatState) (now : Nat)
    (h : jsTrim σ.input = "" ∨ σ.isTyping = true ∨ σ.sessionId = "") :
    sendMessage σ now = ({ σ with error := "" }, none) := by
  unfold sendMessage
  rw [if_pos (by simpa using h)]

/-- C5 witness: the amended statement at the counterexample state. -/
theorem c5_witness :
    sendMessage c5State 0 = ({ c5State with error := "" }, none) :=
  c5_noop_except_error_cleared c5State 0 (Or.inl (by decide))

/-- C7: `touch` on a known id with the preview omitted (the empty default)
or equal to the stored one leaves the whole persisted directory, and in
particular the stored timestamp, unchanged. -/
theorem c7_touch_noop (sessions : List SessionMeta) (id preview : String)
    (now : Nat) (e : SessionMeta)
    (hfind : sessions.find? (fun s => s.id = id) = some e)
    (hp : preview = "" ∨ preview = e.preview) :
    saveSession sessions id preview now = sessions := by
  unfold saveSession
  rw [hfind]
  rcases hp with h | h <;> simp [h]

/-- C7 witness: both no-preview and unchanged-preview calls on a concrete
directory. -/
theorem c7_witness :
    saveSession [⟨"A", "p", 3⟩] "A" "" 7 = [⟨"A", "p", 3⟩] ∧
    saveSession [⟨"A", "p", 3⟩] "A" "p" 7 = [⟨"A", "p", 3⟩] :=
  ⟨c7_touch_noop [⟨"A", "p", 3⟩] "A" "" 7 ⟨"A", "p", 3⟩ (by decide)
      (Or.inl rfl),
    c7_touch_noop [⟨"A", "p", 3⟩] "A" "p" 7 ⟨"A", "p", 3⟩ (by decide)
      (Or.inr rfl)⟩

/-- C3: when the exchange call of a well-formed send fails, the message
list is the pre-send list extended by exactly the optimistic user message
and the fallback model message, the error field is non-empty, and the
typing flag is cleared so the controller is interactive again. -/
theorem c3_send_failure_compensation (σ : ChatState) (now : Nat)
    (errMsg : String)
    (hready : σ.isTyping = false) (hsid : σ.sessionId ≠ "")
    (ht : jsTrim σ.input ≠ "") :
    (sendResolveErr (sendMessage σ now).1 errMsg).messages =
      σ.messages ++
        [{ role := Role.user, text := jsTrim σ.input }, fallbackMessage] ∧
    (sendResolveErr (sendMessage σ now).1 errMsg).error ≠ "" ∧
    (sendResolveErr (sendMessage σ now).1 errMsg).isTyping = false := by
  unfold sendMessage sendResolveErr
  simp only [hready]
  rw [if_neg (by simp [ht, hsid])]
  refine ⟨?_, ?_, ?_⟩
  · split <;> simp
  · split <;> simp_all
  · trivial

/-- C3 witness: a concrete failing send ending with the user message, the
fallback message, a non-empty error and a cleared typing flag. -/
theorem c3_witness :
    (sendResolveErr
        (sendMessage
          { persisted := { sessions := [], currentId := "A" },
            sessionId := "A", sessions := [], messages := [],
            input := "hi", isTyping := false, isLoadingHistory := false,
            error := "" } 2).1 "boom").messages =
      [{ role := Role.user, text := "hi" }, fallbackMessage] :=
  by
    have h := c3_send_failure_compensation
      { persisted := { sessions := [], currentId := "A" },
        sessionId := "A", sessions := [], messages := [],
        input := "hi", isTyping := false, isLoadingHistory := false,
        error := "" } 2 "boom" rfl (by decide) (by decide)
    rw [h.1]
    decide

/-- C6: a history load that returns an empty list or fails seeds the
conversation with exactly the synthetic welcome message, whose role is
model; the error field and the persisted state are untouched (history-load
failures are never surfaced), and every request a send ever issues carries
only the trimmed input text, so the synthetic message is never sent to the
persistence store. -/
theorem c6_welcome_seeding (σ : ChatState) (forSession : String)
    (result : Option (List Message)) (now : Nat)
    (h : result = none ∨ result = some []) :
    (loadHistoryResolve σ forSession result now).messages =
      [welcomeMessage] ∧
    welcomeMessage.role = Role.model ∧
    (loadHistoryResolve σ forSession result now).error = σ.error ∧
    (loadHistoryResolve σ forSession result now).persisted = σ.persisted ∧
    (∀ τ : ChatState, ∀ n : Nat, ∀ r : SendRequest,
      (sendMessage τ n).2 = some r → r.message = jsTrim τ.input) := by
  refine ⟨?_, rfl, ?_, ?_, ?_⟩
  · rcases h with h | h <;> subst h <;> rfl
  · rcases h with h | h <;> subst h <;> rfl
  · rcases h with h | h <;> subst h <;> rfl
  · intro τ n r hr
    unfold sendMessage at hr
    simp only at hr
    split at hr
    · exact absurd hr (by simp)
    · simp only at hr
      injection hr with hr
      rw [← hr]

/-- C6 witness: a failed history load at a concrete state. -/
theorem c6_witness :
    (loadHistoryResolve
        { persisted := { sessions := [], currentId := "A" },
          sessionId := "A", sessions := [], messages := [], input := "",
          isTyping := false, isLoadingHistory := true, error := "" }
        "A" none 4).messages = [welcomeMessage] :=
  (c6_welcome_seeding
    { persisted := { sessions := [], currentId := "A" },
      sessionId := "A", sessions := [], messages := [], input := "",
      isTyping := false, isLoadingHistory := true, error := "" }
    "A" none 4 (Or.inl rfl)).1

/-- History of session B used in the C1 trace. -/
def c1MsgsB : List Message :=
  [{ role := Role.user, text := "b-question" },
    { role := Role.model, text := "b-answer" }]

/-- C1 trace, start: session A is active, a directory with A and B exists,
and the user has typed a message for A. -/
def c1Start : ChatState :=
  { persisted :=
      { sessions :=
          [{ id := "A", preview := "New conversation", timestamp := 1 },
            { id := "B", preview := "b-question", timestamp := 2 }],
        currentId := "A" },
    sessionId := "A",
    sessions :=
      [{ id := "A", preview := "New conversation", timestamp := 1 },
        { id := "B", preview := "b-question", timestamp := 2 }],
    messages := [welcomeMessage],
    input := "question for A",
    isTyping := false, isLoadingHistory := false, error := "" }

/-- C1 trace: the send for A is issued, the user switches to B, B's
history load starts and resolves, and only then the send for A resolves
successfully. -/
def c1AfterSend : ChatState × Option SendRequest := sendMessage c1Start 10

/-- C1 trace after the switch to B. -/
def c1AfterSwitch : ChatState := handleSwitchSession c1AfterSend.1 "B"

/-- C1 trace after B's history load starts. -/
def c1AfterLoadStart : ChatState × Option String :=
  loadHistoryStart c1AfterSwitch

/-- C1 trace after B's history load resolves. -/
def c1AfterLoad : ChatState :=
  loadHistoryResolve c1AfterLoadStart.1 "B" (some c1MsgsB) 11

/-- C1 trace after the stale send for A resolves successfully. -/
def c1Final : ChatState := sendResolveOk c1AfterLoad "stale reply for A"

/-- C1: the code has no staleness guard on send resolution.  In the trace,
the send was issued for session A, the active session is B at resolution
time and B's history is displayed; yet the resolving reply is appended to
B's displayed message list instead of being discarded. -/
theorem c1_stale_reply_appended :
    c1AfterSend.2 = some { forSession := "A", message := "question for A" } ∧
    c1AfterLoad.sessionId = "B" ∧
    c1AfterLoad.messages = c1MsgsB ∧
    c1Final.sessionId = "B" ∧
    c1Final.messages =
      c1MsgsB ++ [{ role := Role.model, text := "stale reply for A" }] ∧
    c1Final.messages ≠ c1AfterLoad.messages := by decide

/-- History of session A used in the C2 trace. -/
def c2MsgsA : List Message := [{ role := Role.model, text := "history of A" }]

/-- History of session B used in the C2 trace. -/
def c2MsgsB : List Message := [{ role := Role.model, text := "history of B" }]

/-- C2 trace, start: session S0 is displayed before two rapid switches. -/
def c2Start : ChatState :=
  { persisted :=
      { sessions :=
          [{ id := "S0", preview := "New conversation", timestamp := 1 },
            { id := "A", preview := "New conversation", timestamp := 2 },
            { id := "B", preview := "New conversation", timestamp := 3 }],
        currentId := "S0" },
    sessionId := "S0",
    sessions :=
      [{ id := "S0", preview := "New conversation", timestamp := 1 },
        { id := "A", preview := "New conversation", timestamp := 2 },
        { id := "B", preview := "New conversation", timestamp := 3 }],
    messages := [welcomeMessage],
    input := "",
    isTyping := false, isLoadingHistory := false, error := "" }

/-- C2 trace: switch to A, A's load starts; switch to B, B's load starts;
B's load resolves first, then A's stale load resolves last. -/
def c2AfterSwitchA : ChatState := handleSwitchSession c2Start "A"

/-- C2 trace after A's history load starts. -/
def c2AfterLoadStartA : ChatState × Option String :=
  loadHistoryStart c2AfterSwitchA

/-- C2 trace after the switch to B. -/
def c2AfterSwitchB : ChatState := handleSwitchSession c2AfterLoadStartA.1 "B"

/-- C2 trace after B's history load starts. -/
def c2AfterLoadStartB : ChatState × Option String :=
  loadHistoryStart c2AfterSwitchB

/-- C2 trace after B's load resolves (the pointer matches: B's history is
displayed). -/
def c2AfterLoadB : ChatState :=
  loadHistoryResolve c2AfterLoadStartB.1 "B" (some c2MsgsB) 12

/-- C2 trace after A's stale load resolves (the pointer no longer
matches). -/
def c2Final : ChatState := loadHistoryResolve c2AfterLoadB "A" (some c2MsgsA) 13

/-- C2: the code has no staleness check on history-load resolution.  In
the trace, A's load was issued while A was the pointer, the pointer has
moved to B and B's history is displayed; yet when A's load resolves it
overwrites the displayed message list with A's history. -/
theorem c2_stale_load_overwrites :
    c2AfterLoadStartA.2 = some "A" ∧
    c2AfterLoadB.sessionId = "B" ∧
    c2AfterLoadB.messages = c2MsgsB ∧
    c2Final.sessionId = "B" ∧
    c2Final.messages = c2MsgsA ∧
    c2Final.messages ≠ c2AfterLoadB.messages := by decide

/-- Lemma: `updateFirst` leaves the first matching entry findable, with the new
preview and timestamp. -/
theorem updateFirst_find? (sessions : List SessionMeta) (id p : String)
    (now : Nat) (e : SessionMeta)
    (hfind : sessions.find? (fun s => s.id = id) = some e) :
    (updateFirst id p now sessions).find? (fun s => s.id = id) =
      some { e with preview := p, timestamp := now } := by
  induction sessions with
  | nil => simp [List.find?] at hfind
  | cons s rest ih =>
    by_cases hs : s.id = id
    · rw [List.find?_cons_of_pos _ (by simp [hs])] at hfind
      injection hfind with hfind
      subst hfind
      unfold updateFirst
      rw [if_pos hs]
      exact List.find?_cons_of_pos _ (by simp [hs])
    · rw [List.find?_cons_of_neg _ (by simp [hs])] at hfind
      unfold updateFirst
      rw [if_neg hs]
      rw [List.find?_cons_of_neg _ (by simp [hs])]
      exact ih hfind

/-- After `saveSession` with a non-empty preview, the directory stores
exactly that preview for the id, whether the id was fresh, known with a
different preview, or known with the same preview. -/
theorem saveSession_previewOf (sessions : List SessionMeta) (id p : String)
    (now : Nat) (hp : p ≠ "") :
    previewOf (saveSession sessions id p now) id = some p := by
  unfold saveSession
  cases hfind : sessions.find? (fun s => s.id = id) with
  | none =>
    unfold previewOf
    rw [List.find?_cons_of_pos _ (by simp)]
    simp [hp]
  | some e =>
    dsimp only
    by_cases hc : p ≠ "" ∧ p ≠ e.preview
    · rw [if_pos hc]
      unfold previewOf
      rw [updateFirst_find? sessions id p now e hfind]
      rfl
    · rw [if_neg hc]
      push_neg at hc
      unfold previewOf
      rw [hfind]
      simp [hc hp]

/-- C8: a well-formed send with at most one message before the optimistic
append stores exactly the leading 50 characters of the trimmed text as the
active session's directory preview; a send with a longer history leaves the
persisted directory untouched. -/
theorem c8_first_message_preview (σ : ChatState) (now : Nat)
    (hready : σ.isTyping = false) (hsid : σ.sessionId ≠ "")
    (ht : jsTrim σ.input ≠ "") :
    (σ.messages.length ≤ 1 →
      previewOf (sendMessage σ now).1.persisted.sessions σ.sessionId =
        some (jsSlice50 (jsTrim σ.input))) ∧
    (1 < σ.messages.length →
      (sendMessage σ now).1.persisted.sessions = σ.persisted.sessions) := by
  unfold sendMessage
  simp only [hready]
  rw [if_neg (by simp [ht, hsid])]
  dsimp only
  constructor
  · intro hlen
    rw [if_pos hlen]
    exact saveSession_previewOf _ _ _ _ (jsSlice50_ne_empty _ ht)
  · intro hlen
    rw [if_neg (by omega)]

/-- A 120-character input used by the C8 witness. -/
def c8Input : String := ⟨List.replicate 120 'x'⟩

/-- C8 witness: a 120-character first message yields a directory preview
of exactly its first 50 characters. -/
theorem c8_witness :
    previewOf
        (sendMessage
          { persisted :=
              { sessions := [⟨"A", "New conversation", 1⟩],
                currentId := "A" },
            sessionId := "A",
            sessions := [⟨"A", "New conversation", 1⟩],
            messages := [], input := c8Input, isTyping := false,
            isLoadingHistory := false, error := "" }
          9).1.persisted.sessions "A" =
      some ⟨List.replicate 50 'x'⟩ :=
  by
    have h := (c8_first_message_preview
      { persisted :=
          { sessions := [⟨"A", "New conversation", 1⟩], currentId := "A" },
        sessionId := "A",
        sessions := [⟨"A", "New conversation", 1⟩],
        messages := [], input := c8Input, isTyping := false,
        isLoadingHistory := false, error := "" }
      9 rfl (by decide) (by decide)).1 (by decide)
    rw [h]
    decide

/-- Lemma: `saveSession` commutes with consing a non-matching entry, provided a
matching entry exists further down. -/
theorem saveSession_cons_ne (s : SessionMeta) (rest : List SessionMeta)
    (id p : String) (now : Nat) (hs : ¬ s.id = id)
    (hsome : (rest.find? (fun x => x.id = id)).isSome) :
    saveSession (s :: rest) id p now = s :: saveSession rest id p now := by
  unfold saveSession
  rw [List.find?_cons_of_neg _ (by simp [hs])]
  cases hr : rest.find? (fun x => x.id = id) with
  | none => rw [hr] at hsome; simp at hsome
  | some e =>
    dsimp only
    by_cases hc : p ≠ "" ∧ p ≠ e.preview
    · rw [if_pos hc, if_pos hc]
      rw [updateFirst]
      rw [if_neg hs]
    · rw [if_neg hc, if_neg hc]

/-- C10: touching a known id with a differing non-empty preview rewrites
exactly the entry at that id's position — its preview and timestamp — and
nothing else: the directory is the pointwise `set` of the old one, of
unchanged length, so no entry moves and no other entry changes. -/
theorem c10_touch_frame (store : List SessionMeta) (id p : String) (now : Nat)
    (hnodup : (store.map SessionMeta.id).Nodup)
    (i : Nat) (hi : i < store.length)
    (hid : (store.get ⟨i, hi⟩).id = id)
    (hp : p ≠ "") (hne : p ≠ (store.get ⟨i, hi⟩).preview) :
    saveSession store id p now =
      store.set i { store.get ⟨i, hi⟩ with preview := p, timestamp := now } ∧
    (saveSession store id p now).length = store.length := by
  have main : saveSession store id p now =
      store.set i { store.get ⟨i, hi⟩ with preview := p, timestamp := now } := by
    induction store generalizing i with
    | nil => exact absurd hi (by simp)
    | cons s rest ih =>
      have hcons : s.id ∉ rest.map SessionMeta.id ∧
          (rest.map SessionMeta.id).Nodup := by
        rw [List.map_cons, List.nodup_cons] at hnodup
        exact hnodup
      cases i with
      | zero =>
        have hs : s.id = id := hid
        unfold saveSession
        rw [List.find?_cons_of_pos _ (by simp [hs])]
        dsimp only
        rw [if_pos ⟨hp, hne⟩]
        rw [updateFirst]
        rw [if_pos hs]
        rfl
      | succ j =>
        have hj : j < rest.length := Nat.lt_of_succ_lt_succ hi
        have hidj : (rest.get ⟨j, hj⟩).id = id := hid
        have hmem : id ∈ rest.map SessionMeta.id := by
          rw [← hidj]
          exact List.mem_map_of_mem _ (rest.get_mem j hj)
        have hs : ¬ s.id = id := by
          intro he
          rw [he] at hcons
          exact hcons.1 hmem
        have hsome : (rest.find? (fun x => x.id = id)).isSome := by
          rw [List.find?_isSome]
          exact ⟨rest.get ⟨j, hj⟩, rest.get_mem j hj, by simpa using hidj⟩
        rw [saveSession_cons_ne s rest id p now hs hsome]
        rw [ih hcons.2 j hj hidj hne]
        rfl
  exact ⟨main, by rw [main]; exact List.length_set ..⟩

/-- C10 witness: touching the middle entry of a three-entry directory. -/
theorem c10_witness :
    saveSession [⟨"A", "pa", 1⟩, ⟨"B", "pb", 2⟩, ⟨"C", "pc", 3⟩] "B" "new" 9 =
      [⟨"A", "pa", 1⟩, ⟨"B", "new", 9⟩, ⟨"C", "pc", 3⟩] :=
  by
    have h := (c10_touch_frame
      [⟨"A", "pa", 1⟩, ⟨"B", "pb", 2⟩, ⟨"C", "pc", 3⟩] "B" "new" 9
      (by decide) 1 (by decide) (by decide) (by decide) (by decide)).1
    rw [h]
    decide

/-- Lemma: `find?` by id misses exactly when the id is absent from the directory. -/
theorem find?_id_eq_none (L : List SessionMeta) (gid : String)
    (h : gid ∉ L.map SessionMeta.id) :
    L.find? (fun s => s.id = gid) = none := by
  rw [List.find?_eq_none]
  intro x hx
  simp only [decide_eq_true_eq]
  intro he
  exact h (List.mem_map.mpr ⟨x, hx, he⟩)

/-- The identifiers returned by a sequence of `createNewSession()` calls
are the generated values, in call order. -/
theorem createNewFold_returns (gen : Nat → String) (now : Nat) (p : Persisted)
    (n : Nat) : (createNewFold gen now p n).2 = (List.range n).map gen := by
  induction n with
  | zero => rfl
  | succ n ih =>
    rw [createNewFold]
    dsimp only
    rw [ih, List.range_succ]
    simp [createNewSession]

/-- Under an injective, fresh generator, `n` `createNewSession()` calls
leave the directory equal to the new entries, most recent first, prepended
to the initial directory. -/
theorem createNewFold_sessions (gen : Nat → String) (now : Nat) (p : Persisted)
    (n : Nat)
    (hinj : ∀ i, i < n → ∀ j, j < n → gen i = gen j → i = j)
    (hfresh : ∀ i, i < n → gen i ∉ p.sessions.map SessionMeta.id) :
    (createNewFold gen now p n).1.sessions =
      ((List.range n).reverse.map
        (fun i => (⟨gen i, "New conversation", now⟩ : SessionMeta))) ++
        p.sessions := by
  induction n with
  | zero => rfl
  | succ n ih =>
    have ihn := ih
      (fun i hi j hj => hinj i (Nat.lt_succ_of_lt hi) j (Nat.lt_succ_of_lt hj))
      (fun i hi => hfresh i (Nat.lt_succ_of_lt hi))
    rw [createNewFold]
    dsimp only
    unfold createNewSession setCurrentSession
    dsimp only
    rw [ihn]
    have hnotmem : gen n ∉
        (((List.range n).reverse.map
          (fun i => (⟨gen i, "New conversation", now⟩ : SessionMeta))) ++
          p.sessions).map SessionMeta.id := by
      rw [List.map_append, List.mem_append]
      rintro (hmem | hmem)
      · rw [List.map_map] at hmem
        rcases List.mem_map.mp hmem with ⟨i, hi, he⟩
        have hilt : i < n := List.mem_range.mp (List.mem_reverse.mp hi)
        have hni : n = i :=
          hinj n (Nat.lt_succ_self n) i (Nat.lt_succ_of_lt hilt) he.symm
        omega
      · exact hfresh n (Nat.lt_succ_self n) hmem
    rw [saveSession]
    rw [find?_id_eq_none _ _ hnotmem]
    rw [List.range_succ, List.reverse_append]
    simp

/-- C9: for every sequence of `createNewSession()` calls whose generated
identifiers are injective and absent from the initial directory (the
negligible-collision assumption the code relies on), the returned
identifiers are pairwise distinct, each occurs exactly once among the final
directory's ids, and each was absent from the directory just before its own
call registered it. -/
theorem c9_createNew_unique (gen : Nat → String) (now : Nat) (p : Persisted)
    (n : Nat)
    (hinj : ∀ i, i < n → ∀ j, j < n → gen i = gen j → i = j)
    (hfresh : ∀ i, i < n → gen i ∉ p.sessions.map SessionMeta.id) :
    ((createNewFold gen now p n).2).Nodup ∧
    (∀ i, i < n →
      ((createNewFold gen now p n).1.sessions.map SessionMeta.id).count
        (gen i) = 1) ∧
    (∀ i, i < n →
      gen i ∉ (createNewFold gen now p i).1.sessions.map SessionMeta.id) := by
  refine ⟨?_, ?_, ?_⟩
  · rw [createNewFold_returns]
    exact List.Nodup.map_on
      (fun i hi j hj he =>
        hinj i (List.mem_range.mp hi) j (List.mem_range.mp hj) he)
      (List.nodup_range n)
  · intro i hilt
    rw [createNewFold_sessions gen now p n hinj hfresh]
    rw [List.map_append, List.count_append, List.map_map]
    have h1 : ((List.range n).reverse.map
        (SessionMeta.id ∘ fun i => (⟨gen i, "New conversation", now⟩ :
          SessionMeta))).count (gen i) = 1 := by
      apply List.count_eq_one_of_mem
      · exact List.Nodup.map_on
          (fun a ha b hb he =>
            hinj a (List.mem_range.mp (List.mem_reverse.mp ha))
              b (List.mem_range.mp (List.mem_reverse.mp hb)) he)
          (List.nodup_reverse.mpr (List.nodup_range n))
      · exact List.mem_map.mpr
          ⟨i, List.mem_reverse.mpr (List.mem_range.mpr hilt), rfl⟩
    have h2 : (p.sessions.map SessionMeta.id).count (gen i) = 0 :=
      List.count_eq_zero_of_not_mem (hfresh i hilt)
    rw [h1, h2]
  · intro i hilt
    rw [createNewFold_sessions gen now p i
      (fun a ha b hb => hinj a (Nat.lt_trans ha hilt) b (Nat.lt_trans hb hilt))
      (fun a ha => hfresh a (Nat.lt_trans ha hilt))]
    rw [List.map_append, List.mem_append]
    rintro (hmem | hmem)
    · rw [List.map_map] at hmem
      rcases List.mem_map.mp hmem with ⟨j, hj, he⟩
      have hjlt : j < i := List.mem_range.mp (List.mem_reverse.mp hj)
      have hji : j = i := hinj j (Nat.lt_trans hjlt hilt) i hilt he
      omega
    · exact hfresh i hilt hmem

/-- C9 witness: three creations with a concrete injective generator on an
empty directory. -/
theorem c9_witness :
    ((createNewFold (fun k => (⟨List.replicate (k + 1) 'a'⟩ : String)) 5
        (⟨[], ""⟩ : Persisted) 3).2).Nodup ∧
    ((createNewFold (fun k => (⟨List.replicate (k + 1) 'a'⟩ : String)) 5
        (⟨[], ""⟩ : Persisted) 3).1.sessions.map SessionMeta.id).count
      "a" = 1 :=
  by
    have h := c9_createNew_unique
      (fun k => (⟨List.replicate (k + 1) 'a'⟩ : String)) 5
      (⟨[], ""⟩ : Persisted) 3 (by decide) (by decide)
    exact ⟨h.1, h.2.1 0 (by decide)⟩

end ChatUI
